import Mathlib

set_option maxRecDepth 8000

/-!
Verification of the SportyBet scraper core (src/scraper.py) against its
natural-language specification.

Shallow embedding conventions:
* JSON documents are modelled by the inductive `Json`; Python numbers
  (int and float alike) are modelled as exact decimals `m / 10^e`
  (mantissa and decimal exponent).  Exact Python float repr / binary
  rounding is not modelled; the 2-decimal formatting is modelled by
  decimal rounding, which agrees with Python on all values used in this
  development.
* Python `dict`s are insertion-ordered association lists.
* Code that can raise a non-`ScraperError` exception (AttributeError /
  TypeError on malformed records) is modelled in the `Except PyExc` monad.
* Network fetches are modelled by a `FetchRes` oracle per endpoint:
  the document the transport would return, or the exception it would raise.
-/

/-- JSON values / Python objects flowing through the scraper.
A number is the exact decimal `m / 10^e` (Python int when `e = 0`). -/
inductive Json where
  | null
  | bool (b : Bool)
  | num (m : ℤ) (e : ℕ)
  | str (s : String)
  | arr (xs : List Json)
  | obj (kvs : List (String × Json))
deriving Repr

/-- `10 ^ e` as an integer. -/
def pow10 (e : ℕ) : ℤ := ((10 ^ e : ℕ) : ℤ)

mutual

/-- Decidable structural equality for `Json`. -/
def Json.beq : Json → Json → Bool
  | .null, .null => true
  | .bool a, .bool b => a == b
  | .num am ae, .num bm be => am * pow10 be == bm * pow10 ae
  | .str a, .str b => a == b
  | .arr a, .arr b => Json.beqList a b
  | .obj a, .obj b => Json.beqObj a b
  | _, _ => false

def Json.beqList : List Json → List Json → Bool
  | [], [] => true
  | a :: as, b :: bs => Json.beq a b && Json.beqList as bs
  | _, _ => false

def Json.beqObj : List (String × Json) → List (String × Json) → Bool
  | [], [] => true
  | (k, a) :: as, (l, b) :: bs => k == l && Json.beq a b && Json.beqObj as bs
  | _, _ => false

end

instance : BEq Json := ⟨Json.beq⟩

/-- Python truthiness of a value (`bool(v)`). -/
def pyTruthy : Json → Bool
  | .null => false
  | .bool b => b
  | .num m _ => m != 0
  | .str s => s != ""
  | .arr xs => !xs.isEmpty
  | .obj kvs => !kvs.isEmpty

/-- Python `d.get(k)` on an insertion-ordered dict: first binding wins. -/
def jget (kvs : List (String × Json)) (k : String) : Option Json :=
  match kvs with
  | [] => none
  | (k', v) :: rest => if k' == k then some v else jget rest k

/-- `_pick(d, keys, default)` from scraper.py: try multiple keys on a dict,
return first hit that is not None, `""` or `[]`. -/
def _pick (kvs : List (String × Json)) (keys : List String) (dflt : Json := .null) : Json :=
  match keys with
  | [] => dflt
  | k :: ks =>
    match jget kvs k with
    | some v =>
      if !(v == Json.null) && !(v == Json.str "") && !(v == Json.arr []) then v
      else _pick kvs ks dflt
    | none => _pick kvs ks dflt

/-- Python `str.lower()` (structural; character-wise). -/
def pyLower (s : String) : String := ⟨s.toList.map Char.toLower⟩

/-- Python `str.strip()` (structural; whitespace from both ends). -/
def pyStrip (s : String) : String :=
  ⟨((s.toList.dropWhile Char.isWhitespace).reverse.dropWhile Char.isWhitespace).reverse⟩

/-- Python `s.startswith(p)` (structural). -/
def pyStartsWith (s p : String) : Bool := p.toList.isPrefixOf s.toList

/-- Python `s[:n]` (structural; slicing counts characters). -/
def pyTake (s : String) (n : ℕ) : String := ⟨s.toList.take n⟩

/-- `_truncate(s, n=28)` from scraper.py: truncate with ellipsis rather
than hard cut (`s if len(s) <= n else s[:n-1] + "…"`). -/
def _truncate (s : String) (n : Nat := 28) : String :=
  if s.length ≤ n then s else (pyTake s (n - 1)) ++ "…"

/-- `_match_alias(value, aliases)`: `value.strip().lower() in aliases`. -/
def _match_alias (value : String) (aliases : List String) : Bool :=
  aliases.contains (pyLower (pyStrip value))

/-- `CACHE_TTL = 300` seconds. -/
def CACHE_TTL : ℚ := 300

/-- Canonical match record produced by `_extract_match`.  The three odds
dicts are `none` when empty (`odds_1x2 or None` in the source). -/
structure MatchRec where
  event_id : String
  home : String
  away : String
  time : String
  league : String
  odds_1x2 : Option (List (String × String))
  odds_ou : Option (List (String × String))
  odds_btts : Option (List (String × String))
deriving Repr, DecidableEq

/-- `_Cache` from scraper.py: one list of matches plus the monotonic
timestamp of the last `set`.  Time is passed explicitly (rational seconds,
standing in for `time.monotonic()`). -/
structure _Cache where
  _data : List MatchRec
  _ts : ℚ
deriving Repr, DecidableEq

/-- `_Cache.get`: return the data only if non-empty and younger than the TTL. -/
def _Cache.get (c : _Cache) (now : ℚ) : Option (List MatchRec) :=
  if !c._data.isEmpty ∧ now - c._ts < CACHE_TTL then some c._data else none

/-- `_Cache.set`: unconditionally replace data and timestamp. -/
def _Cache.set (ms : List MatchRec) (now : ℚ) : _Cache :=
  ⟨ms, now⟩

/-- `_Cache.invalidate`: empty data, zero timestamp. -/
def _Cache.invalidate : _Cache := ⟨[], 0⟩

-- ── Python numeric conversions ────────────────────────────────────────────

/-- Digits to a natural number. -/
def digitsVal (cs : List Char) : Nat :=
  cs.foldl (fun a c => a * 10 + (c.toNat - 48)) 0

/-- Parse the exponent part of a float literal: optional sign then digits. -/
def parseExpPart (cs : List Char) : Option ℤ :=
  let f : List Char → Option ℤ := fun ds =>
    if ds.isEmpty || !ds.all Char.isDigit then none else some (digitsVal ds)
  match cs with
  | '+' :: rest => f rest
  | '-' :: rest => (f rest).map Neg.neg
  | rest => f rest

/-- Shift a decimal `m / 10^e` by `10^k`. -/
def decShift (m : ℤ) (e : ℕ) (k : ℤ) : ℤ × ℕ :=
  if k < 0 then (m, e + k.natAbs) else (m * pow10 k.natAbs, e)

/-- Parse an unsigned Python float literal into a decimal `m / 10^e`:
digits, optional fraction, optional exponent
(`inf`/`nan`/underscores not modelled). -/
def parseUFloat (cs : List Char) : Option (ℤ × ℕ) :=
  let ip := cs.takeWhile Char.isDigit
  let rest := cs.dropWhile Char.isDigit
  match rest with
  | [] => if ip.isEmpty then none else some ((digitsVal ip : ℤ), 0)
  | '.' :: rest2 =>
    let fp := rest2.takeWhile Char.isDigit
    let rest3 := rest2.dropWhile Char.isDigit
    if ip.isEmpty && fp.isEmpty then none
    else
      let m : ℤ := (digitsVal ip : ℤ) * pow10 fp.length + (digitsVal fp : ℤ)
      match rest3 with
      | [] => some (m, fp.length)
      | 'e' :: es => (parseExpPart es).map (fun k => decShift m fp.length k)
      | 'E' :: es => (parseExpPart es).map (fun k => decShift m fp.length k)
      | _ => none
  | 'e' :: es =>
    if ip.isEmpty then none
    else (parseExpPart es).map (fun k => decShift (digitsVal ip : ℤ) 0 k)
  | 'E' :: es =>
    if ip.isEmpty then none
    else (parseExpPart es).map (fun k => decShift (digitsVal ip : ℤ) 0 k)
  | _ => none

/-- Python `float(s)` on a string: strip whitespace, optional sign, literal. -/
def parseFloatStr (s : String) : Option (ℤ × ℕ) :=
  match (pyStrip s).toList with
  | '+' :: cs => parseUFloat cs
  | '-' :: cs => (parseUFloat cs).map (fun p => (-p.1, p.2))
  | cs => parseUFloat cs

/-- Python `float(v)`: numbers and bools convert, parseable strings parse,
everything else raises (`none`). -/
def pyFloat : Json → Option (ℤ × ℕ)
  | .num m e => some (m, e)
  | .bool b => some (if b then 1 else 0, 0)
  | .str s => parseFloatStr s
  | _ => none

/-- Python `int(s)` on a string: strip, optional sign, digits only. -/
def parseIntStr (s : String) : Option ℤ :=
  let f : List Char → Option ℤ := fun ds =>
    if ds.isEmpty || !ds.all Char.isDigit then none else some (digitsVal ds)
  match (pyStrip s).toList with
  | '+' :: cs => f cs
  | '-' :: cs => (f cs).map Neg.neg
  | cs => f cs

/-- Python `int(v)`: floats truncate toward zero, strings must be integer
literals, bools convert, other values raise (`none`). -/
def pyInt : Json → Option ℤ
  | .num m e => some (Int.tdiv m (pow10 e))
  | .bool b => some (if b then 1 else 0)
  | .str s => parseIntStr s
  | _ => none

/-- Zero-pad a natural number to two digits. -/
def pad2 (n : Nat) : String :=
  if n < 10 then "0" ++ toString n else toString n

/-- `f"{x:.2f}"` on the decimal `m / 10^e`: round half-up to the nearest
hundredth (Python's binary-float tie behaviour is not exercised by this
code). -/
def fmt2 (m : ℤ) (e : ℕ) : String :=
  let n : ℤ := Int.fdiv (m * 200 + pow10 e) (2 * pow10 e)
  let a := n.natAbs
  (if n < 0 then "-" else "") ++ toString (a / 100) ++ "." ++ pad2 (a % 100)

/-- `datetime.fromtimestamp(ms / 1000, tz=timezone.utc).strftime("%H:%M UTC")`
for an integer millisecond timestamp.  `none` models the ValueError raised
by `fromtimestamp` itself when the timestamp falls outside datetime's year
range 1..9999 (seconds in [-62135596800, 253402300799], i.e. 0001-01-01 to
9999-12-31 relative to the epoch); that error is caught by the source and
becomes "TBD".  (The OverflowError far beyond the platform time_t range is
not modelled.) -/
def fmtHM (ms : ℤ) : Option String :=
  let secs := Int.fdiv ms 1000
  if -62135596800 ≤ secs ∧ secs ≤ 253402300799 then
    some (pad2 ((Int.fdiv secs 3600) % 24).toNat ++ ":" ++
      pad2 ((Int.fdiv secs 60) % 60).toNat ++ " UTC")
  else none

-- ── Python str() ──────────────────────────────────────────────────────────

/-- Exact decimal rendering of `m / 10^e` with `e` fractional digits
(stands in for Python float repr; trailing zeros are not trimmed, and no
verified claim depends on its exact output). -/
def fmtDec (m : ℤ) (e : ℕ) : String :=
  let s := toString m.natAbs
  let s := if s.length ≤ e then String.mk (List.replicate (e + 1 - s.length) '0') ++ s else s
  (if m < 0 then "-" else "") ++ pyTake s (s.length - e) ++ ⟨'.' :: s.toList.drop (s.length - e)⟩

mutual

/-- Python `str(v)`.  Containers use an abbreviated repr (no claim in this
development depends on container rendering). -/
def pyStr : Json → String
  | .null => "None"
  | .bool true => "True"
  | .bool false => "False"
  | .num m 0 => toString m
  | .num m (e+1) => fmtDec m (e+1)
  | .str s => s
  | .arr xs => "[" ++ pyStrList xs ++ "]"
  | .obj kvs => "\x7b" ++ pyStrObj kvs ++ "\x7d"

def pyStrList : List Json → String
  | [] => ""
  | [x] => pyStr x
  | x :: rest => pyStr x ++ ", " ++ pyStrList rest

def pyStrObj : List (String × Json) → String
  | [] => ""
  | [(k, v)] => k ++ ": " ++ pyStr v
  | (k, v) :: rest => k ++ ": " ++ pyStr v ++ ", " ++ pyStrObj rest

end

/-- `_normalize_odd(raw)` from scraper.py:
try `f"{float(raw):.2f}"`; on TypeError/ValueError return
`str(raw) if raw is not None else "?"`. -/
def _normalize_odd (raw : Json) : String :=
  match pyFloat raw with
  | some (m, e) => fmt2 m e
  | none => if raw == Json.null then "?" else pyStr raw

-- ── Field / alias tables ──────────────────────────────────────────────────

/-- Exceptions other than `ScraperError` that malformed records can raise
(AttributeError from `.get` on a non-dict, TypeError from iterating a
non-iterable). -/
inductive PyExc where
  | attrErr
  | typeErr
deriving DecidableEq, Repr

/-- `.get`/attribute access requires a dict; anything else raises. -/
def asDict : Json → Except PyExc (List (String × Json))
  | .obj kvs => .ok kvs
  | _ => .error .attrErr

/-- `FIELD_MAP` from scraper.py: possible field names per datum. -/
def FIELD_MAP : List (String × List String) :=
  [("event_id",     ["eventId", "id", "gameId", "matchId"]),
   ("home",         ["homeTeamName", "homeName", "home_name"]),
   ("away",         ["awayTeamName", "awayName", "away_name"]),
   ("home_obj",     ["home"]),
   ("away_obj",     ["away"]),
   ("start",        ["estimateStartTime", "startTime", "matchTime", "kickOffTime"]),
   ("league",       ["tournamentName", "leagueName", "competitionName"]),
   ("league_obj",   ["league", "tournament", "competition"]),
   ("markets",      ["markets", "oddsMap", "marketList", "odds"]),
   ("market_id",    ["id", "marketId", "typeId"]),
   ("outcomes",     ["outcomes", "odds", "selections", "outcomeList"]),
   ("odd_val",      ["odds", "value", "oddValue", "price"]),
   ("outcome_desc", ["desc", "name", "description", "outcomeName"])]

/-- Key list of a `FIELD_MAP` entry. -/
def fm (k : String) : List String := (FIELD_MAP.lookup k).getD []

/-- `OUTCOME_ALIASES` from scraper.py (insertion order preserved). -/
def OUTCOME_ALIASES : List (String × List (String × List String)) :=
  [("1x2",
     [("home", ["1", "w1", "home", "home win", "1 (home)"]),
      ("draw", ["x", "draw", "tie", "x (draw)"]),
      ("away", ["2", "w2", "away", "away win", "2 (away)"])]),
   ("ou25",
     [("over",  ["over", "over 2.5", "o2.5", ">2.5"]),
      ("under", ["under", "under 2.5", "u2.5", "<2.5"])]),
   ("btts",
     [("yes", ["yes", "gg", "both score", "both teams score"]),
      ("no",  ["no", "ng", "not both", "both teams don\x27t score"])])]

/-- Alias table of one market. -/
def aliasesFor (k : String) : List (String × List String) :=
  (OUTCOME_ALIASES.lookup k).getD []

/-- `MARKET_IDS` from scraper.py (sets; only membership is used). -/
def MARKET_IDS : List (String × List String) :=
  [("1x2",  ["1", "sr:market:1"]),
   ("ou25", ["18", "sr:market:18", "sr:market:18:total=2.5"]),
   ("btts", ["10", "sr:market:10"])]

/-- Id set of one market. -/
def marketIds (k : String) : List String := (MARKET_IDS.lookup k).getD []

/-- Python `a or b` on values (truthiness short-circuit). -/
def pyOrJ (a b : Json) : Json := if pyTruthy a then a else b

-- ── Odds extraction ───────────────────────────────────────────────────────

/-- Inner loop of `_fill_outcomes` for one outcome: first canonical key that
is not yet in the target and whose alias list matches the description gets
the value; `break` afterwards. -/
def fillKeys (target : List (String × String)) (desc val : String) :
    List (String × List String) → List (String × String)
  | [] => target
  | (key, aliasList) :: rest =>
    if (target.lookup key).isNone && _match_alias desc aliasList then
      target ++ [(key, val)]
    else fillKeys target desc val rest

/-- `_fill_outcomes(outcomes, target, aliases)` from scraper.py: for each
outcome dict take its description (stripped, lowered) and normalized odd,
then run the first-wins key fill. -/
def _fill_outcomes (outcomes : List Json) (target : List (String × String))
    (aliases : List (String × List String)) : Except PyExc (List (String × String)) :=
  match outcomes with
  | [] => .ok target
  | o :: rest => do
    let okvs ← asDict o
    let desc := pyLower (pyStrip (pyStr (_pick okvs (fm "outcome_desc") (.str ""))))
    let val := _normalize_odd (_pick okvs (fm "odd_val"))
    _fill_outcomes rest (fillKeys target desc val aliases) aliases

/-- Loop body of `_extract_odds` over the markets array. -/
def extractOddsGo : List Json → List (String × String) → List (String × String) →
    List (String × String) →
    Except PyExc (List (String × String) × List (String × String) × List (String × String))
  | [], a, b, c => .ok (a, b, c)
  | mkt :: rest, a, b, c => do
    let mkvs ← asDict mkt
    let rawId := pyLower (pyStr (pyOrJ (_pick mkvs (fm "market_id") (.str "")) (.str "")))
    match _pick mkvs (fm "outcomes") (.arr []) with
    | .arr os =>
      if (marketIds "1x2").contains rawId then do
        let a' ← _fill_outcomes os a (aliasesFor "1x2")
        extractOddsGo rest a' b c
      else if (marketIds "ou25").contains rawId then do
        let b' ← _fill_outcomes os b (aliasesFor "ou25")
        extractOddsGo rest a b' c
      else if (marketIds "btts").contains rawId then do
        let c' ← _fill_outcomes os c (aliasesFor "btts")
        extractOddsGo rest a b c'
      else extractOddsGo rest a b c
    | _ => extractOddsGo rest a b c

/-- `_extract_odds(event)` from scraper.py: dispatch each market by id into
the three odds dicts; a non-list markets value yields three empty dicts. -/
def _extract_odds (ekvs : List (String × Json)) :
    Except PyExc (List (String × String) × List (String × String) × List (String × String)) :=
  match _pick ekvs (fm "markets") (.arr []) with
  | .arr ms => extractOddsGo ms [] [] []
  | _ => .ok ([], [], [])

-- ── Per-event extraction ──────────────────────────────────────────────────

/-- `v.get("name")` where `v` came from an `or {}` chain: dict lookup
(missing key yields None), anything else raises AttributeError. -/
def getNameAttr : Json → Except PyExc Json
  | .obj kvs => .ok ((jget kvs "name").getD .null)
  | _ => .error .attrErr

/-- The `A or B.get("name") or "Dflt"` resolution idiom of `_extract_match`
(used for home, away and league): flat fields first, then a nested name
object, then a placeholder; a truthy non-dict object value raises. -/
def resolveName (ekvs : List (String × Json)) (flatKeys objKeys : List String)
    (dflt : String) : Except PyExc Json :=
  let h1 := _pick ekvs flatKeys
  if pyTruthy h1 then .ok h1
  else
    match getNameAttr (pyOrJ (_pick ekvs objKeys (.obj [])) (.obj [])) with
    | .error e => .error e
    | .ok h2 => .ok (if pyTruthy h2 then h2 else Json.str dflt)

/-- The league chain of `_extract_match`:
`league or _pick(...) or (...).get("name") or "Football"`. -/
def resolveLeague (ekvs : List (String × Json)) (league : Json) : Except PyExc Json :=
  if pyTruthy league then .ok league
  else resolveName ekvs (fm "league") (fm "league_obj") "Football"

/-- `_extract_match(event, league=None)` from scraper.py.  Returns `none`
(record dropped) when the event id is falsy; raises (models the uncaught
AttributeError) when a truthy team/league object value is not a dict or the
event itself is not a dict. -/
def _extract_match (event : Json) (league : Json := .null) : Except PyExc (Option MatchRec) :=
  match asDict event with
  | .error e => .error e
  | .ok ekvs =>
    let event_id := _pick ekvs (fm "event_id")
    if !pyTruthy event_id then .ok none
    else
      match resolveName ekvs (fm "home") (fm "home_obj") "Home" with
      | .error e => .error e
      | .ok home =>
        match resolveName ekvs (fm "away") (fm "away_obj") "Away" with
        | .error e => .error e
        | .ok away =>
          let start_ms := _pick ekvs (fm "start") (.num 0 0)
          let time_str :=
            match pyInt start_ms with
            | some n =>
              match fmtHM n with
              | some s => s
              | none => "TBD"
            | none => "TBD"
          match resolveLeague ekvs league with
          | .error e => .error e
          | .ok league_name =>
            match _extract_odds ekvs with
            | .error e => .error e
            | .ok (o1, oou, obtts) =>
              .ok (some
                { event_id := pyStr event_id
                  home := _truncate (pyStr home)
                  away := _truncate (pyStr away)
                  time := time_str
                  league := _truncate (pyStr league_name) 32
                  odds_1x2 := if o1.isEmpty then none else some o1
                  odds_ou := if oou.isEmpty then none else some oou
                  odds_btts := if obtts.isEmpty then none else some obtts })

-- ── Parsers ───────────────────────────────────────────────────────────────

/-- The list comprehension of `_parse_highlights`: extract every event,
keep the non-None records; an exception in any extraction propagates. -/
def extractEvents : List Json → Except PyExc (List MatchRec)
  | [] => .ok []
  | e :: rest =>
    match _extract_match e with
    | .error ex => .error ex
    | .ok m =>
      match extractEvents rest with
      | .error ex => .error ex
      | .ok ms =>
        .ok (match m with | some mr => mr :: ms | none => ms)

/-- `_parse_highlights(data)` from scraper.py: unwrap an optional `data`
envelope and an optional `events` field; a non-list events value yields
`[]` (warned), a non-dict document raises. -/
def _parse_highlights (data : Json) : Except PyExc (List MatchRec) :=
  match data with
  | .obj kvs =>
    let payload := (jget kvs "data").getD data
    let events :=
      match payload with
      | .obj pk => (jget pk "events").getD payload
      | _ => payload
    match events with
    | .arr es => extractEvents es
    | _ => .ok []
  | _ => .error .attrErr

/-- Python `for x in v`: lists iterate elements, strings characters, dicts
keys; other values raise TypeError. -/
def asIterList : Json → Except PyExc (List Json)
  | .arr xs => .ok xs
  | .str s => .ok (s.toList.map (fun c => Json.str (String.singleton c)))
  | .obj kvs => .ok (kvs.map (fun kv => Json.str kv.1))
  | _ => .error .typeErr

/-- Event loop of `_parse_schedule` for one tournament. -/
def scheduleEvents (league : Json) : List Json → Except PyExc (List MatchRec)
  | [] => .ok []
  | e :: rest => do
    let m ← _extract_match e league
    let ms ← scheduleEvents league rest
    match m with
    | some mr => .ok (mr :: ms)
    | none => .ok ms

/-- Tournament loop of `_parse_schedule`. -/
def scheduleTournaments : List Json → Except PyExc (List MatchRec)
  | [] => .ok []
  | t :: rest => do
    let tkvs ← asDict t
    let league := _pick tkvs ["name", "tournamentName", "leagueName"] (.str "Football")
    let evList ← asIterList ((jget tkvs "events").getD (.arr []))
    let ms1 ← scheduleEvents league evList
    let ms2 ← scheduleTournaments rest
    .ok (ms1 ++ ms2)

/-- `_parse_schedule(data)` from scraper.py. -/
def _parse_schedule (data : Json) : Except PyExc (List MatchRec) := do
  let kvs ← asDict data
  let payload ← asDict ((jget kvs "data").getD (.obj []))
  let ts ← asIterList ((jget payload "tournaments").getD (.arr []))
  scheduleTournaments ts

/-- `_parse(data, parser_type)` from scraper.py. -/
def _parse (data : Json) (parserKind : String) : Except PyExc (List MatchRec) :=
  if parserKind == "highlights" then _parse_highlights data
  else if parserKind == "schedule" then _parse_schedule data
  else .ok []

-- ── Structured error and response validation ──────────────────────────────

/-- `ScraperError` from scraper.py.  The `cause` field records whether an
underlying exception object was attached (its payload is not modelled). -/
structure ScraperError where
  message : String
  cause : Bool := false
  endpoint : Option String := none
deriving DecidableEq, Repr

/-- Outcome of `_validate`: a raised `ScraperError`, or the uncaught
AttributeError raised when the decoded document is not a dict. -/
inductive VFail where
  | err (e : ScraperError)
  | attr
deriving DecidableEq, Repr

/-- Python `pat in s` on character lists: contiguous subsequence test. -/
def containsSeq (pat : List Char) : List Char → Bool
  | [] => pat.isEmpty
  | c :: rest => pat.isPrefixOf (c :: rest) || containsSeq pat rest

/-- The HTML sniff of `_validate`:
`text.strip().startswith("<!") or "<html" in text[:300].lower()`. -/
def htmlSniff (text : String) : Bool :=
  pyStartsWith (pyStrip text) "<!" ||
    containsSeq ("<html".toList) ((pyLower (pyTake text 300)).toList)

/-- `data.get("bizCode", data.get("code"))` of `_validate` (a present key
wins even when its value is None). -/
def bizOf (kvs : List (String × Json)) : Json :=
  ((jget kvs "bizCode").orElse (fun _ => jget kvs "code")).getD .null

/-- `biz and biz != 0` of `_validate` (Python equality: `0`, `0.0` and
`False` all equal `0`). -/
def bizBad (kvs : List (String × Json)) : Bool :=
  pyTruthy (bizOf kvs) && !(bizOf kvs == Json.num 0 0) && !(bizOf kvs == Json.bool false)

/-- The business-error message of `_validate`:
`f"bizCode={biz}: {data.get('message', 'API error')}"`. -/
def bizMsg (kvs : List (String × Json)) : String :=
  "bizCode=" ++ pyStr (bizOf kvs) ++ ": " ++ pyStr ((jget kvs "message").getD (.str "API error"))

/-- `_validate(status, text, url)` from scraper.py.  `decoded` stands for
the result of `json.loads(text)` (`none` = raises JSONDecodeError). -/
def _validate (status : ℤ) (text : String) (decoded : Option Json) (url : String) :
    Except VFail Json :=
  if status == 403 then
    .error (.err ⟨"Blocked (403) — install curl_cffi for Cloudflare bypass", false, some url⟩)
  else if status == 429 then
    .error (.err ⟨"Rate limited (429) — too many requests", false, some url⟩)
  else if status == 404 then
    .error (.err ⟨"Endpoint not found (404)", false, some url⟩)
  else if status != 200 then
    .error (.err ⟨"HTTP " ++ toString status, false, some url⟩)
  else if htmlSniff text then
    .error (.err ⟨"Got HTML page — likely Cloudflare challenge", false, some url⟩)
  else
    match decoded with
    | none => .error (.err ⟨"Invalid JSON", true, some url⟩)
    | some data =>
      match data with
      | .obj kvs =>
        if bizBad kvs then
          .error (.err ⟨bizMsg kvs, false, some url⟩)
        else .ok data
      | _ => .error .attr

/-- The validator as the specification words it: identical to `_validate`
except that check (5) tests only that the body text begins with an HTML
doctype or tag marker (written from the spec sentence, for comparison). -/
def _validate_spec (status : ℤ) (text : String) (decoded : Option Json) (url : String) :
    Except VFail Json :=
  if status == 403 then
    .error (.err ⟨"Blocked (403) — install curl_cffi for Cloudflare bypass", false, some url⟩)
  else if status == 429 then
    .error (.err ⟨"Rate limited (429) — too many requests", false, some url⟩)
  else if status == 404 then
    .error (.err ⟨"Endpoint not found (404)", false, some url⟩)
  else if status != 200 then
    .error (.err ⟨"HTTP " ++ toString status, false, some url⟩)
  else if pyStartsWith (pyStrip text) "<!" || pyStartsWith (pyLower (pyStrip text)) "<html" then
    .error (.err ⟨"Got HTML page — likely Cloudflare challenge", false, some url⟩)
  else
    match decoded with
    | none => .error (.err ⟨"Invalid JSON", true, some url⟩)
    | some data =>
      match data with
      | .obj kvs =>
        if bizBad kvs then
          .error (.err ⟨bizMsg kvs, false, some url⟩)
        else .ok data
      | _ => .error .attr

-- ── Endpoint chain / facade ───────────────────────────────────────────────

/-- An `ENDPOINTS` entry: url, query parameters, parser kind. -/
structure Endpoint where
  url : String
  params : List (String × String)
  parser : String
deriving DecidableEq, Repr

def SPORTYBET_BASE : String := "https://www.sportybet.com/api/ng"

/-- `ENDPOINTS` from scraper.py, in priority order. -/
def ENDPOINTS : List Endpoint :=
  [⟨SPORTYBET_BASE ++ "/sport/football/highlights",
    [("sportId", "sr:sport:1"), ("marketId", "1,18,10"), ("pageSize", "100")], "highlights"⟩,
   ⟨SPORTYBET_BASE ++ "/sport/football/events/schedule/today",
    [("marketId", "1,18,10")], "schedule"⟩,
   ⟨SPORTYBET_BASE ++ "/factsCenter/football",
    [("sportId", "1"), ("marketId", "1,18,10"), ("page", "1"), ("pageSize", "100")], "highlights"⟩]

/-- What `self._fetch(url, params)` does for one endpoint, as an oracle:
it returned a document, raised a `ScraperError`, or raised something else. -/
inductive FetchRes where
  | ok (doc : Json)
  | scraperFail (e : ScraperError)
  | otherFail
deriving Repr

/-- Compose a fetch outcome from a validated response: a `ScraperError`
raised by `_validate` is re-raised by `_fetch` (both transports share the
validation step); any other exception surfaces untyped. -/
def ofValidate (status : ℤ) (text : String) (decoded : Option Json) (url : String) : FetchRes :=
  match _validate status text decoded url with
  | .ok d => .ok d
  | .error (.err e) => .scraperFail e
  | .error .attr => .otherFail

/-- One iteration of the chain loop body: fetch outcome plus parse, with
non-`ScraperError` exceptions wrapped as `"Unexpected error"` tagged with
the endpoint (the two `except` clauses of `get_today_matches`). -/
def chainStep (ep : Endpoint) (r : FetchRes) : Except ScraperError (List MatchRec) :=
  match r with
  | .scraperFail e => .error e
  | .otherFail => .error ⟨"Unexpected error", true, some ep.url⟩
  | .ok doc =>
    match _parse doc ep.parser with
    | .ok ms => .ok ms
    | .error _ => .error ⟨"Unexpected error", true, some ep.url⟩

/-- Result of a `get_today_matches` call: the returned list or raised
error, the cache state afterwards, and how many endpoints were fetched. -/
structure GTM where
  result : Except ScraperError (List MatchRec)
  cache : _Cache
  tried : Nat
deriving Repr

/-- The chain loop of `get_today_matches`: non-empty parse wins and is
cached; empty parses and errors continue, errors becoming `last_error`;
exhaustion raises `last_error or ScraperError("All endpoints exhausted …")`. -/
def runChain (cache : _Cache) (now : ℚ) :
    List (Endpoint × FetchRes) → Option ScraperError → GTM
  | [], lastErr =>
    ⟨.error (lastErr.getD ⟨"All endpoints exhausted — no matches returned", false, none⟩),
      cache, 0⟩
  | (ep, r) :: rest, lastErr =>
    match chainStep ep r with
    | .ok ms =>
      if ms.isEmpty then
        let g := runChain cache now rest lastErr
        ⟨g.result, g.cache, g.tried + 1⟩
      else ⟨.ok ms, _Cache.set ms now, 1⟩
    | .error e =>
      let g := runChain cache now rest (some e)
      ⟨g.result, g.cache, g.tried + 1⟩

/-- `get_today_matches(force_refresh)` from scraper.py over the fetch
oracle `attempts` (one entry per endpoint, in chain order). -/
def get_today_matches (force_refresh : Bool) (cache : _Cache) (now : ℚ)
    (attempts : List (Endpoint × FetchRes)) : GTM :=
  if force_refresh then runChain cache now attempts none
  else
    match _Cache.get cache now with
    | some ms => ⟨.ok ms, cache, 0⟩
    | none => runChain cache now attempts none

/-- Does this chain entry fail to produce matches (error or empty parse)? -/
def attemptFails (p : Endpoint × FetchRes) : Bool :=
  match chainStep p.1 p.2 with
  | .ok ms => ms.isEmpty
  | .error _ => true

/-- The `last_error` accumulator after walking (part of) the chain. -/
def lastErrAux (lastErr : Option ScraperError) :
    List (Endpoint × FetchRes) → Option ScraperError
  | [] => lastErr
  | (ep, r) :: rest =>
    match chainStep ep r with
    | .error e => lastErrAux (some e) rest
    | .ok _ => lastErrAux lastErr rest

/-- The `last_error` recorded after walking the whole chain. -/
def lastErrOf (attempts : List (Endpoint × FetchRes)) : Option ScraperError :=
  lastErrAux none attempts

-- ── Shared concrete fixtures ──────────────────────────────────────────────

/-- The flat-list event of the end-to-end scenario in the spec (§8). -/
def exEvent : Json :=
  .obj [("eventId", .str "E1"), ("homeTeamName", .str "Arsenal"),
        ("awayTeamName", .str "Chelsea"), ("estimateStartTime", .num 1700000000000 0),
        ("markets", .arr [.obj [("id", .str "1"), ("outcomes", .arr
          [.obj [("desc", .str "1"), ("odds", .num 18 1)],
           .obj [("desc", .str "X"), ("odds", .num 32 1)],
           .obj [("desc", .str "2"), ("odds", .num 45 1)]])]])]

/-- The match record `exEvent` extracts to. -/
def exMatch : MatchRec :=
  ⟨"E1", "Arsenal", "Chelsea", "22:13 UTC", "Football",
   some [("home", "1.80"), ("draw", "3.20"), ("away", "4.50")], none, none⟩

-- ── Helper lemmas ─────────────────────────────────────────────────────────

theorem lookup_append_left {α β : Type} [BEq α] (l1 l2 : List (α × β)) (k : α) (v : β)
    (h : l1.lookup k = some v) : (l1 ++ l2).lookup k = some v := by
  induction l1 with
  | nil => simp [List.lookup] at h
  | cons p l ih =>
    rcases p with ⟨a, b⟩
    rw [List.cons_append]
    simp only [List.lookup] at h ⊢
    cases hk : k == a with
    | true => rw [hk] at h; exact h
    | false => rw [hk] at h; exact ih h

theorem fillKeys_preserves (target : List (String × String)) (desc val : String)
    (al : List (String × List String)) (k v : String)
    (h : target.lookup k = some v) : (fillKeys target desc val al).lookup k = some v := by
  induction al with
  | nil => exact h
  | cons p rest ih =>
    rcases p with ⟨key, als⟩
    unfold fillKeys
    by_cases hc : ((target.lookup key).isNone && _match_alias desc als) = true
    · simp only [hc, if_true]
      exact lookup_append_left _ _ _ _ h
    · simp only [hc, if_false]
      exact ih

theorem fill_outcomes_preserves (outcomes : List Json) (target : List (String × String))
    (aliases : List (String × List String)) (k v : String) (t' : List (String × String))
    (h : target.lookup k = some v) (hf : _fill_outcomes outcomes target aliases = .ok t') :
    t'.lookup k = some v := by
  induction outcomes generalizing target with
  | nil =>
    unfold _fill_outcomes at hf
    cases hf
    exact h
  | cons o rest ih =>
    unfold _fill_outcomes at hf
    cases ho : asDict o with
    | error e => rw [ho] at hf; exact absurd hf (by simp [Except.bind, Bind.bind])
    | ok okvs =>
      rw [ho] at hf
      simp only [Except.bind, Bind.bind] at hf
      exact ih _ (fillKeys_preserves _ _ _ _ _ _ h) hf

-- ── Claims ────────────────────────────────────────────────────────────────

/-- C2: the claim says an odds value that cannot be parsed as a number is
rendered as the sentinel "?" and a raw unvalidated upstream string is never
returned; evaluating `_normalize_odd` shows the unparseable string "N/A"
comes back verbatim (only a None value yields "?"), while parseable values
do get the 2-decimal rendering — the code contradicts its own docstring
("Normalize odds to a 2-decimal string"). -/
theorem c2_normalize_odd_returns_raw_string :
    _normalize_odd (Json.str "N/A") = "N/A" ∧
    ("N/A" : String) ≠ "?" ∧
    _normalize_odd Json.null = "?" ∧
    _normalize_odd (Json.num 25 1) = "2.50" := by
  refine ⟨by decide, by decide, by decide, by decide⟩

/-- C9: `_truncate` leaves strings of at most the bound (28 for team names,
32 for leagues) unchanged and turns longer strings into their first
bound-minus-one characters followed by the ellipsis marker. -/
theorem c9_truncate_bounds (s : String) :
    (s.length ≤ 28 → _truncate s = s) ∧
    (28 < s.length → _truncate s = pyTake s 27 ++ "…") ∧
    (s.length ≤ 32 → _truncate s 32 = s) ∧
    (32 < s.length → _truncate s 32 = pyTake s 31 ++ "…") := by
  refine ⟨fun h => ?_, fun h => ?_, fun h => ?_, fun h => ?_⟩
  · simp [_truncate, h]
  · simp [_truncate, Nat.not_le.mpr h]
  · simp [_truncate, h]
  · simp [_truncate, Nat.not_le.mpr h]

/-- Witness for C9: a 40-character team name truncates to its first 27
characters plus the ellipsis; a 20-character name is unchanged. -/
theorem c9_truncate_bounds_witness :
    28 < ("AAAAAAAAAAAAAAAAAAAAAAAAAAAAAAAAAAAAAAAA" : String).length ∧
    _truncate "AAAAAAAAAAAAAAAAAAAAAAAAAAAAAAAAAAAAAAAA" =
      pyTake "AAAAAAAAAAAAAAAAAAAAAAAAAAAAAAAAAAAAAAAA" 27 ++ "…" ∧
    ("BBBBBBBBBBBBBBBBBBBB" : String).length ≤ 28 ∧
    _truncate "BBBBBBBBBBBBBBBBBBBB" = "BBBBBBBBBBBBBBBBBBBB" :=
  ⟨by decide,
   (c9_truncate_bounds "AAAAAAAAAAAAAAAAAAAAAAAAAAAAAAAAAAAAAAAA").2.1 (by decide),
   by decide,
   (c9_truncate_bounds "BBBBBBBBBBBBBBBBBBBB").1 (by decide)⟩

/-- C6: a cache `set` followed by `get` returns exactly the stored list
iff it is non-empty and the age is still strictly below the TTL (so at age
= TTL the entry is absent); and any successful `get` returns precisely the
stored data, which is non-empty and fresh — never stale or partial. -/
theorem c6_cache_ttl (c : _Cache) (ms : List MatchRec) (now now' : ℚ) :
    ((_Cache.set ms now).get now' =
      if ms ≠ [] ∧ now' - now < CACHE_TTL then some ms else none) ∧
    (∀ r, c.get now = some r → r = c._data ∧ r ≠ [] ∧ now - c._ts < CACHE_TTL) := by
  constructor
  · by_cases h1 : ms = []
    · simp [_Cache.get, _Cache.set, h1]
    · by_cases h2 : now' - now < CACHE_TTL
      · simp [_Cache.get, _Cache.set, h1, h2]
      · simp [_Cache.get, _Cache.set, h1, h2]
  · intro r hr
    unfold _Cache.get at hr
    by_cases h : (!c._data.isEmpty : Bool) = true ∧ now - c._ts < CACHE_TTL
    · rw [if_pos h] at hr
      cases hr
      refine ⟨rfl, ?_, h.2⟩
      simpa [List.isEmpty_iff] using h.1
    · rw [if_neg h] at hr
      cases hr

/-- Witness for C6: a concrete list stored at time 10 is returned intact
at time 309 (age 299 < 300). -/
theorem c6_cache_ttl_witness :
    _Cache.get (_Cache.set [exMatch] 10) 309 = some [exMatch] ∧
    ((_Cache.set [exMatch] 10).get 309 = some [exMatch] →
      [exMatch] = (_Cache.set [exMatch] 10)._data ∧ [exMatch] ≠ [] ∧
      309 - (_Cache.set [exMatch] 10)._ts < CACHE_TTL) :=
  ⟨by simp [_Cache.get, _Cache.set, CACHE_TTL]; norm_num,
   fun h => (c6_cache_ttl (_Cache.set [exMatch] 10) [] 309 0).2 [exMatch] h⟩

/-- C8: for the result market the labels "1", "W1" and "Home Win" all
resolve (case-insensitively after trimming) to the home key and fill it;
and a key already present in the target is never overwritten by a later
matching outcome — first-wins. -/
theorem c8_alias_first_wins :
    (∀ v : String, ∀ d ∈ ["1", "W1", "Home Win"],
        _match_alias d (((aliasesFor "1x2").lookup "home").getD []) = true ∧
        fillKeys [] d v (aliasesFor "1x2") = [("home", v)]) ∧
    (∀ outcomes target aliases k v t',
        target.lookup k = some v →
        _fill_outcomes outcomes target aliases = .ok t' →
        t'.lookup k = some v) := by
  constructor
  · intro v d hd
    simp only [List.mem_cons, List.mem_singleton] at hd
    rcases hd with rfl | rfl | hd
    · exact ⟨by decide, by rfl⟩
    · exact ⟨by decide, by rfl⟩
    · rcases hd with rfl | hd
      · exact ⟨by decide, by rfl⟩
      · cases hd
  · intro outcomes target aliases k v t' h hf
    exact fill_outcomes_preserves outcomes target aliases k v t' h hf

/-- Witness for C8: "Home Win" fills the home key from an empty target;
with home already bound to "2.00", a later outcome labelled "1" leaves it
at "2.00". -/
theorem c8_alias_first_wins_witness :
    (("Home Win" : String) ∈ ["1", "W1", "Home Win"] ∧
      fillKeys [] "Home Win" "1.80" (aliasesFor "1x2") = [("home", "1.80")]) ∧
    ([("home", "2.00")].lookup "home" = some "2.00") ∧
    (_fill_outcomes [Json.obj [("desc", Json.str "1"), ("odds", Json.num 3 0)]]
        [("home", "2.00")] (aliasesFor "1x2") = .ok [("home", "2.00")]) ∧
    ([("home", "2.00")].lookup "home" = some "2.00") :=
  ⟨⟨by decide, (c8_alias_first_wins.1 "1.80" "Home Win" (by decide)).2⟩,
   by decide, by rfl,
   c8_alias_first_wins.2 [Json.obj [("desc", Json.str "1"), ("odds", Json.num 3 0)]]
     [("home", "2.00")] (aliasesFor "1x2") "home" "2.00" [("home", "2.00")] (by decide)
     (by rfl)⟩

theorem extractEvents_cons (e : Json) (rest : List Json) :
    extractEvents (e :: rest) =
      (match _extract_match e with
       | .error ex => .error ex
       | .ok m =>
         match extractEvents rest with
         | .error ex => .error ex
         | .ok ms => .ok (match m with | some mr => mr :: ms | none => ms)) := rfl

theorem extractEvents_skip (xs ys : List Json) (e : Json)
    (h : _extract_match e = .ok none) :
    extractEvents (xs ++ e :: ys) = extractEvents (xs ++ ys) := by
  induction xs with
  | nil =>
    rw [List.nil_append, List.nil_append, extractEvents_cons, h]
    cases hr : extractEvents ys <;> rfl
  | cons x xs ih =>
    rw [List.cons_append, List.cons_append, extractEvents_cons, extractEvents_cons, ih]

/-- C3: the claim says the extracted time is "TBD" whenever the source
timestamp field is missing; but a missing timestamp falls back to the
default 0 and is rendered as the epoch time "00:00 UTC", not "TBD" — here
an event carrying only an id (no start field under any known key) yields
time "00:00 UTC". -/
theorem c3_time_counterexample :
    _extract_match (Json.obj [("eventId", Json.str "e1")]) =
      .ok (some ⟨"e1", "Home", "Away", "00:00 UTC", "Football", none, none, none⟩) ∧
    ((fm "start").all (fun k => (jget [("eventId", Json.str "e1")] k).isNone)) = true ∧
    ("00:00 UTC" : String) ≠ "TBD" :=
  ⟨by rfl, by rfl, by decide⟩

/-- C3 (amended): for every extracted match record, the time field is the
formatted UTC rendering of the integer-parsed timestamp — the timestamp
defaulting to 0 (epoch, "00:00 UTC") when the field is missing — and the
sentinel "TBD" exactly when the picked value fails integer parsing or the
parsed timestamp lies outside datetime's representable year range (the
caught `fromtimestamp` ValueError). -/
theorem c3_time_amended (ekvs : List (String × Json)) (league : Json) (m : MatchRec)
    (h : _extract_match (Json.obj ekvs) league = .ok (some m)) :
    m.time = ((pyInt (_pick ekvs (fm "start") (.num 0 0))).bind fmtHM).getD "TBD" := by
  unfold _extract_match at h
  simp only [asDict] at h
  by_cases hid : (!pyTruthy (_pick ekvs (fm "event_id"))) = true
  · rw [if_pos hid] at h
    exact absurd h (by simp)
  · rw [if_neg hid] at h
    cases hh : resolveName ekvs (fm "home") (fm "home_obj") "Home" with
    | error ex => rw [hh] at h; exact absurd h (by simp)
    | ok home =>
      rw [hh] at h
      cases ha : resolveName ekvs (fm "away") (fm "away_obj") "Away" with
      | error ex => rw [ha] at h; exact absurd h (by simp)
      | ok away =>
        rw [ha] at h
        cases hl : resolveLeague ekvs league with
        | error ex => rw [hl] at h; exact absurd h (by simp)
        | ok league_name =>
          rw [hl] at h
          cases ho : _extract_odds ekvs with
          | error ex => rw [ho] at h; exact absurd h (by simp)
          | ok triple =>
            rw [ho] at h
            rcases triple with ⟨o1, oou, obtts⟩
            simp only [Except.ok.injEq, Option.some.injEq] at h
            subst h
            cases hx : pyInt (_pick ekvs (fm "start") (Json.num 0 0)) with
            | none => simp [hx]
            | some n => cases hf : fmtHM n <;> simp [hx, hf]

/-- Witness for C3 (amended): an event with an in-range millisecond
timestamp parses to its formatted UTC kick-off time, and an event whose
timestamp parses as an integer but overflows datetime's year range
(10^15 ms, the case where CPython's `fromtimestamp` raises the caught
ValueError) yields "TBD". -/
theorem c3_time_amended_witness :
    _extract_match (Json.obj [("eventId", Json.str "E1"),
        ("estimateStartTime", Json.num 1700000000000 0)]) Json.null =
      .ok (some ⟨"E1", "Home", "Away", "22:13 UTC", "Football", none, none, none⟩) ∧
    (⟨"E1", "Home", "Away", "22:13 UTC", "Football", none, none, none⟩ : MatchRec).time =
      ((pyInt (_pick [("eventId", Json.str "E1"), ("estimateStartTime", Json.num 1700000000000 0)]
        (fm "start") (.num 0 0))).bind fmtHM).getD "TBD" ∧
    _extract_match (Json.obj [("eventId", Json.str "E2"),
        ("estimateStartTime", Json.num 1000000000000000 0)]) Json.null =
      .ok (some ⟨"E2", "Home", "Away", "TBD", "Football", none, none, none⟩) ∧
    (⟨"E2", "Home", "Away", "TBD", "Football", none, none, none⟩ : MatchRec).time =
      ((pyInt (_pick [("eventId", Json.str "E2"), ("estimateStartTime", Json.num 1000000000000000 0)]
        (fm "start") (.num 0 0))).bind fmtHM).getD "TBD" :=
  ⟨by rfl,
   c3_time_amended [("eventId", Json.str "E1"), ("estimateStartTime", Json.num 1700000000000 0)]
     Json.null _ (by rfl),
   by rfl,
   c3_time_amended [("eventId", Json.str "E2"), ("estimateStartTime", Json.num 1000000000000000 0)]
     Json.null _ (by rfl)⟩

/-- C4: the claim says a failure while extracting one individual event is
skipped and logged and never aborts the whole parse; but there is no
per-event exception handling — a single malformed record (here a bare
string among the events) raises and the whole parse fails, losing the
good record that parses fine on its own. -/
theorem c4_abort_counterexample :
    _parse_highlights (Json.obj [("events", Json.arr [exEvent, Json.str "junk"])]) =
      .error .attrErr ∧
    _parse_highlights (Json.obj [("events", Json.arr [exEvent])]) = .ok [exMatch] :=
  ⟨by rfl, by rfl⟩

/-- C4 (amended): an event record whose extraction yields no match (falsy
or missing event id) is dropped without affecting the other events — the
flat-list parse of a document with that event equals the parse without it;
however an exception raised while extracting a single event propagates and
aborts the whole parse (see the counterexample). -/
theorem c4_skip_idless_event (xs ys : List Json) (e : Json)
    (h : _extract_match e = .ok none) :
    _parse_highlights (Json.obj [("events", Json.arr (xs ++ e :: ys))]) =
      _parse_highlights (Json.obj [("events", Json.arr (xs ++ ys))]) := by
  have e1 : ∀ L, _parse_highlights (Json.obj [("events", Json.arr L)]) = extractEvents L :=
    fun L => rfl
  rw [e1, e1]
  exact extractEvents_skip xs ys e h

/-- Witness for C4 (amended): an empty event object (no id) among the
events leaves the parse of the remaining events unchanged. -/
theorem c4_skip_idless_event_witness :
    _extract_match (Json.obj []) = .ok none ∧
    _parse_highlights (Json.obj [("events", Json.arr [exEvent, Json.obj []])]) =
      _parse_highlights (Json.obj [("events", Json.arr [exEvent])]) :=
  ⟨by rfl, c4_skip_idless_event [exEvent] [] (Json.obj []) (by rfl)⟩

theorem runChain_cons (cache : _Cache) (now : ℚ) (ep : Endpoint) (r : FetchRes)
    (rest : List (Endpoint × FetchRes)) (lastErr : Option ScraperError) :
    runChain cache now ((ep, r) :: rest) lastErr =
      (match chainStep ep r with
       | .ok ms =>
         if ms.isEmpty then
           let g := runChain cache now rest lastErr
           ⟨g.result, g.cache, g.tried + 1⟩
         else ⟨.ok ms, _Cache.set ms now, 1⟩
       | .error e =>
         let g := runChain cache now rest (some e)
         ⟨g.result, g.cache, g.tried + 1⟩) := rfl

theorem runChain_first_success (cache : _Cache) (now : ℚ)
    (pre suf : List (Endpoint × FetchRes)) (ep : Endpoint) (r : FetchRes)
    (ms : List MatchRec) (lastErr : Option ScraperError)
    (hpre : ∀ p ∈ pre, attemptFails p = true)
    (hok : chainStep ep r = .ok ms) (hne : ms ≠ []) :
    runChain cache now (pre ++ (ep, r) :: suf) lastErr =
      ⟨.ok ms, _Cache.set ms now, pre.length + 1⟩ := by
  induction pre generalizing lastErr with
  | nil =>
    rw [List.nil_append, runChain_cons, hok]
    dsimp only
    rw [if_neg (by simp [List.isEmpty_iff, hne])]
    rfl
  | cons p pre ih =>
    rcases p with ⟨pep, pr⟩
    have hp : attemptFails (pep, pr) = true := hpre (pep, pr) (List.mem_cons_self _ _)
    have hpre' : ∀ q ∈ pre, attemptFails q = true :=
      fun q hq => hpre q (List.mem_cons_of_mem _ hq)
    cases hstep : chainStep pep pr with
    | ok pms =>
      have hE : pms.isEmpty = true := by
        unfold attemptFails at hp
        rw [hstep] at hp
        exact hp
      rw [List.cons_append, runChain_cons, hstep]
      dsimp only
      rw [if_pos hE, ih lastErr hpre']
      rfl
    | error pe =>
      rw [List.cons_append, runChain_cons, hstep]
      dsimp only
      rw [ih (some pe) hpre']
      rfl

theorem runChain_all_fail (attempts : List (Endpoint × FetchRes)) (cache : _Cache)
    (now : ℚ) (lastErr : Option ScraperError)
    (h : ∀ p ∈ attempts, attemptFails p = true) :
    (runChain cache now attempts lastErr).result =
      .error ((lastErrAux lastErr attempts).getD
        ⟨"All endpoints exhausted — no matches returned", false, none⟩) := by
  induction attempts generalizing lastErr with
  | nil => rfl
  | cons p rest ih =>
    rcases p with ⟨ep, r⟩
    have hp : attemptFails (ep, r) = true := h (ep, r) (List.mem_cons_self _ _)
    have h' : ∀ q ∈ rest, attemptFails q = true :=
      fun q hq => h q (List.mem_cons_of_mem _ hq)
    cases hstep : chainStep ep r with
    | ok pms =>
      have hE : pms.isEmpty = true := by
        unfold attemptFails at hp
        rw [hstep] at hp
        exact hp
      rw [runChain_cons, hstep]
      unfold lastErrAux
      rw [hstep]
      dsimp only
      rw [if_pos hE]
      exact ih lastErr h' 
    | error pe =>
      rw [runChain_cons, hstep]
      unfold lastErrAux
      rw [hstep]
      dsimp only
      exact ih (some pe) h' 

theorem runChain_cache_on_error (attempts : List (Endpoint × FetchRes)) (cache : _Cache)
    (now : ℚ) (lastErr : Option ScraperError) (e : ScraperError)
    (h : (runChain cache now attempts lastErr).result = .error e) :
    (runChain cache now attempts lastErr).cache = cache := by
  induction attempts generalizing lastErr with
  | nil => rfl
  | cons p rest ih =>
    rcases p with ⟨ep, r⟩
    rw [runChain_cons] at h ⊢
    cases hstep : chainStep ep r with
    | ok pms =>
      rw [hstep] at h
      dsimp only at h ⊢
      cases hE : pms.isEmpty with
      | true =>
        rw [if_pos hE] at h
        rw [if_pos rfl]
        exact ih lastErr h
      | false =>
        rw [if_neg (by simp [hE])] at h
        exact Except.noConfusion h
    | error pe =>
      rw [hstep] at h
      dsimp only at h ⊢
      exact ih (some pe) h

/-- The first and third `ENDPOINTS` entries and a flat-list document, used
by concrete witnesses. -/
def ep1 : Endpoint := ENDPOINTS.get ⟨0, by decide⟩

def ep3 : Endpoint := ENDPOINTS.get ⟨2, by decide⟩

def exDoc : Json := Json.obj [("events", Json.arr [exEvent])]

/-- C1: on a cache miss or force_refresh, endpoints are tried strictly in
priority order: every earlier endpoint that raised a `ScraperError` (or any
wrapped exception) or parsed to an empty list is passed over, and the first
endpoint whose parse yields a non-empty list has that list written to the
cache and returned immediately — the number of endpoints fetched is exactly
the position of the first success, so no later endpoint is ever fetched. -/
theorem c1_chain_priority_short_circuit (force_refresh : Bool) (cache : _Cache) (now : ℚ)
    (pre suf : List (Endpoint × FetchRes)) (ep : Endpoint) (r : FetchRes) (ms : List MatchRec)
    (hmiss : force_refresh = true ∨ _Cache.get cache now = none)
    (hpre : ∀ p ∈ pre, attemptFails p = true)
    (hok : chainStep ep r = .ok ms) (hne : ms ≠ []) :
    get_today_matches force_refresh cache now (pre ++ (ep, r) :: suf) =
      ⟨.ok ms, _Cache.set ms now, pre.length + 1⟩ := by
  have hrun := runChain_first_success cache now pre suf ep r ms none hpre hok hne
  cases force_refresh with
  | true => exact hrun
  | false =>
    have hc : _Cache.get cache now = none := by
      rcases hmiss with hf | hc
      · cases hf
      · exact hc
    unfold get_today_matches
    rw [if_neg (by simp), hc]
    exact hrun

/-- Witness for C1: with endpoint 1 blocked (403) and endpoint 3 serving a
one-event document, the call returns that single match, caches it, and has
fetched exactly 2 endpoints. -/
theorem c1_chain_priority_short_circuit_witness :
    ((true : Bool) = true ∨ _Cache.get ⟨[], 0⟩ 7 = none) ∧
    (∀ p ∈ [(ep1, ofValidate 403 "" none ep1.url)], attemptFails p = true) ∧
    chainStep ep3 (.ok exDoc) = .ok [exMatch] ∧ [exMatch] ≠ [] ∧
    get_today_matches true ⟨[], 0⟩ 7
        ([(ep1, ofValidate 403 "" none ep1.url)] ++ (ep3, .ok exDoc) :: []) =
      ⟨.ok [exMatch], _Cache.set [exMatch] 7, 2⟩ :=
  ⟨Or.inl rfl, by decide, by rfl, by decide,
   c1_chain_priority_short_circuit true ⟨[], 0⟩ 7
     [(ep1, ofValidate 403 "" none ep1.url)] [] ep3 (.ok exDoc) [exMatch]
     (Or.inl rfl) (by decide) (by rfl) (by decide)⟩

/-- C7: when every endpoint fails or yields no matches, `get_today_matches`
raises the last recorded `ScraperError`, or the generic "All endpoints
exhausted" error only when none was recorded; in particular when all three
`ENDPOINTS` respond with HTTP 403 the raised error is the validator's
blocked message (which starts with "Blocked"), not a generic failure. -/
theorem c7_exhaustion_last_error :
    (∀ (cache : _Cache) (now : ℚ) (attempts : List (Endpoint × FetchRes)),
      (∀ p ∈ attempts, attemptFails p = true) →
      (get_today_matches true cache now attempts).result =
        .error ((lastErrOf attempts).getD
          ⟨"All endpoints exhausted — no matches returned", false, none⟩)) ∧
    (∀ (cache : _Cache) (now : ℚ),
      (get_today_matches true cache now
          (ENDPOINTS.map (fun ep => (ep, ofValidate 403 "" none ep.url)))).result =
        .error ⟨"Blocked (403) — install curl_cffi for Cloudflare bypass", false,
          some (SPORTYBET_BASE ++ "/factsCenter/football")⟩ ∧
      pyStartsWith "Blocked (403) — install curl_cffi for Cloudflare bypass" "Blocked" = true) := by
  constructor
  · intro cache now attempts h
    exact runChain_all_fail attempts cache now none h
  · intro cache now
    refine ⟨?_, by rfl⟩
    have h := runChain_all_fail
      (ENDPOINTS.map (fun ep => (ep, ofValidate 403 "" none ep.url))) cache now none
      (by decide)
    rw [show (get_today_matches true cache now
        (ENDPOINTS.map (fun ep => (ep, ofValidate 403 "" none ep.url)))).result =
      (runChain cache now
        (ENDPOINTS.map (fun ep => (ep, ofValidate 403 "" none ep.url))) none).result from rfl]
    rw [h]
    rfl

/-- Witness for C7: an empty chain records no error and raises the generic
exhaustion error. -/
theorem c7_exhaustion_last_error_witness :
    (∀ p ∈ ([] : List (Endpoint × FetchRes)), attemptFails p = true) ∧
    (get_today_matches true ⟨[], 0⟩ 0 []).result =
      .error ⟨"All endpoints exhausted — no matches returned", false, none⟩ :=
  ⟨by decide, c7_exhaustion_last_error.1 ⟨[], 0⟩ 0 [] (by decide)⟩

/-- C10: whenever `get_today_matches` raises (its result is an error), the
shared cache is left exactly as it was before the call — neither the
stored list nor the timestamp changes on a failed run. -/
theorem c10_error_leaves_cache (force_refresh : Bool) (cache : _Cache) (now : ℚ)
    (attempts : List (Endpoint × FetchRes)) (e : ScraperError)
    (h : (get_today_matches force_refresh cache now attempts).result = .error e) :
    (get_today_matches force_refresh cache now attempts).cache = cache := by
  cases force_refresh with
  | true => exact runChain_cache_on_error attempts cache now none e h
  | false =>
    unfold get_today_matches at h ⊢
    rw [if_neg (by simp)] at h ⊢
    cases hc : _Cache.get cache now with
    | some ms =>
      rw [hc] at h
    | none =>
      rw [hc] at h
      exact runChain_cache_on_error attempts cache now none e h

/-- Witness for C10: a failing refresh over an empty chain leaves a
non-empty cache snapshot (data and timestamp) untouched. -/
theorem c10_error_leaves_cache_witness :
    (get_today_matches true ⟨[exMatch], 5⟩ 9 []).result =
      .error ⟨"All endpoints exhausted — no matches returned", false, none⟩ ∧
    (get_today_matches true ⟨[exMatch], 5⟩ 9 []).cache = ⟨[exMatch], 5⟩ :=
  ⟨by rfl, c10_error_leaves_cache true ⟨[exMatch], 5⟩ 9 [] _ (by rfl)⟩

/-- C5: the claim describes check (5) as the body text beginning with an
HTML doctype/tag marker; the code also raises the challenge error whenever
"<html" merely occurs anywhere in the first 300 characters — here a valid
JSON body whose string value contains "<html>" is rejected by `_validate`
although none of the seven conditions as the claim words them holds
(`_validate_spec`, written from the claim's wording, returns the document). -/
theorem c5_validate_counterexample :
    _validate 200 "\x7b\"x\": \"<html>\"\x7d"
        (some (Json.obj [("x", Json.str "<html>")])) "u" =
      .error (.err ⟨"Got HTML page — likely Cloudflare challenge", false, some "u"⟩) ∧
    _validate_spec 200 "\x7b\"x\": \"<html>\"\x7d"
        (some (Json.obj [("x", Json.str "<html>")])) "u" =
      .ok (Json.obj [("x", Json.str "<html>")]) :=
  ⟨by rfl, by rfl⟩

/-- C5 (amended): `_validate` evaluates exactly these conditions in this
order, raising a `ScraperError` tagged with the endpoint on the first that
holds: 403 (blocked — raised by validation regardless of which client
fetched), 429, 404, any other non-200, the HTML sniff (stripped body starts
with "<!" or "<html" occurs in the lowercased first 300 characters), body
not valid JSON (cause attached), non-zero business code (upstream message);
a document is returned iff every check passes. -/
theorem c5_validate_checks (status : ℤ) (text : String) (decoded : Option Json) (url : String) :
    (status = 403 →
      _validate status text decoded url =
        .error (.err ⟨"Blocked (403) — install curl_cffi for Cloudflare bypass", false, some url⟩)) ∧
    (status ≠ 403 → status = 429 →
      _validate status text decoded url =
        .error (.err ⟨"Rate limited (429) — too many requests", false, some url⟩)) ∧
    (status ≠ 403 → status ≠ 429 → status = 404 →
      _validate status text decoded url =
        .error (.err ⟨"Endpoint not found (404)", false, some url⟩)) ∧
    (status ≠ 403 → status ≠ 429 → status ≠ 404 → status ≠ 200 →
      _validate status text decoded url =
        .error (.err ⟨"HTTP " ++ toString status, false, some url⟩)) ∧
    (status = 200 → htmlSniff text = true →
      _validate status text decoded url =
        .error (.err ⟨"Got HTML page — likely Cloudflare challenge", false, some url⟩)) ∧
    (status = 200 → htmlSniff text = false → decoded = none →
      _validate status text decoded url = .error (.err ⟨"Invalid JSON", true, some url⟩)) ∧
    (∀ kvs, status = 200 → htmlSniff text = false → decoded = some (Json.obj kvs) →
      bizBad kvs = true →
      _validate status text decoded url = .error (.err ⟨bizMsg kvs, false, some url⟩)) ∧
    (∀ d, _validate status text decoded url = .ok d ↔
      (status = 200 ∧ htmlSniff text = false ∧ decoded = some d ∧
        ∃ kvs, d = Json.obj kvs ∧ bizBad kvs = false)) := by
  refine ⟨?_, ?_, ?_, ?_, ?_, ?_, ?_, ?_⟩
  · intro h1; simp [_validate, h1]
  · intro h1 h2; simp [_validate, h2]
  · intro h1 h2 h3; simp [_validate, h1, h2, h3]
  · intro h1 h2 h3 h4; simp [_validate, h1, h2, h3, h4]
  · intro h1 h2; simp [_validate, h1, h2]
  · intro h1 h2 h3; simp [_validate, h1, h2, h3]
  · intro kvs h1 h2 h3 h4; simp [_validate, h1, h2, h3, h4]
  · intro d
    constructor
    · intro h
      by_cases h1 : status = 403
      · simp [_validate, h1] at h
      by_cases h2 : status = 429
      · simp [_validate, h1, h2] at h
      by_cases h3 : status = 404
      · simp [_validate, h1, h2, h3] at h
      by_cases h4 : status = 200
      · subst h4
        by_cases h5 : htmlSniff text = true
        · simp [_validate, h1, h2, h3, h5] at h
        · cases decoded with
          | none => simp [_validate, h1, h2, h3, h5] at h
          | some data =>
            cases data with
            | obj kvs =>
              by_cases h6 : bizBad kvs = true
              · simp [_validate, h1, h2, h3, h5, h6] at h
              · have hd : Json.obj kvs = d := by
                  simpa [_validate, h1, h2, h3, h5, h6] using h
                subst hd
                exact ⟨rfl, by simpa using h5, rfl, kvs, rfl, by simpa using h6⟩
            | null => simp [_validate, h1, h2, h3, h5] at h
            | bool b => simp [_validate, h1, h2, h3, h5] at h
            | num m e => simp [_validate, h1, h2, h3, h5] at h
            | str s => simp [_validate, h1, h2, h3, h5] at h
            | arr xs => simp [_validate, h1, h2, h3, h5] at h
      · simp [_validate, h1, h2, h3, h4] at h
    · rintro ⟨h1, h2, h3, kvs, rfl, h5⟩
      subst h1
      rw [h3]
      simp [_validate, h2, h5]

/-- Witness for C5 (amended): a 403 raises the blocked error; a 200 with an
undecodable body raises the JSON decode error with a cause; the ok-iff at a
clean business-success document. -/
theorem c5_validate_checks_witness :
    _validate 403 "" none "u" =
      .error (.err ⟨"Blocked (403) — install curl_cffi for Cloudflare bypass", false, some "u"⟩) ∧
    _validate 200 "nojson" none "u" = .error (.err ⟨"Invalid JSON", true, some "u"⟩) ∧
    (_validate 200 "ok" (some (Json.obj [("bizCode", Json.num 0 0)])) "u" =
        .ok (Json.obj [("bizCode", Json.num 0 0)]) ↔
      ((200 : ℤ) = 200 ∧ htmlSniff "ok" = false ∧
        (some (Json.obj [("bizCode", Json.num 0 0)]) : Option Json) =
          some (Json.obj [("bizCode", Json.num 0 0)]) ∧
        ∃ kvs, Json.obj [("bizCode", Json.num 0 0)] = Json.obj kvs ∧ bizBad kvs = false)) :=
  ⟨(c5_validate_checks 403 "" none "u").1 rfl,
   (c5_validate_checks 200 "nojson" none "u").2.2.2.2.2.1 rfl (by rfl) rfl,
   (c5_validate_checks 200 "ok" (some (Json.obj [("bizCode", Json.num 0 0)])) "u").2.2.2.2.2.2.2
     (Json.obj [("bizCode", Json.num 0 0)])⟩
